import Mathlib

/-!
Shallow embedding of the audit/fix/consistency orchestration core of the
brainstormpw repository (backend/graph/nodes.py, backend/graph/workflow.py,
backend/models.py, backend/prompts.py), together with theorems settling the
frozen claims about that core.

Python dictionaries that the code probes with `.get` are modelled as records
of `Option` fields (a `none` field stands for an absent key or a `None`
value where the code cannot distinguish the two), except `target_issue`,
which the code treats as an arbitrary dictionary (it tests its truthiness
and reads string values out of it with defaults), modelled as an
association list of string key/value pairs.  A LangGraph node returns a
partial state update; we model the update as a record of optional
assignments plus the merge function `applyUpdate`.  The outward LLM calls
are modelled as oracles mapping the system-message string to
`Except String response`; each node result also carries `llm_calls`, the
number of provider invocations performed, incremented exactly at the source
call sites.
-/

namespace BrainstormPW

/-- Serialized form of a pydantic `Issue` (backend/models.py), as stored in
the state's `issues` list after `model_dump`. -/
structure IssueDict where
  id : String
  severity : String
  issue_description : String
  recommendation : String
  fixable : Bool
deriving Repr, DecidableEq

/-- Pydantic `Issue` model (backend/models.py). -/
structure Issue where
  id : String
  severity : String
  issue_description : String
  recommendation : String
  fixable : Bool
deriving Repr, DecidableEq

/-- `Issue.model_dump`: serialization of an `Issue` to its dictionary form. -/
def Issue.model_dump (i : Issue) : IssueDict :=
  { id := i.id, severity := i.severity, issue_description := i.issue_description,
    recommendation := i.recommendation, fixable := i.fixable }

/-- Pydantic `AuditResponse` model (backend/models.py). -/
structure AuditResponse where
  is_compliant : Bool
  issues : List Issue
deriving Repr, DecidableEq

/-- Pydantic `FixResponse` model (backend/models.py). -/
structure FixResponse where
  fixed_content : String
deriving Repr, DecidableEq

/-- Serialized form of a pydantic `GlobalIssue` (backend/models.py). -/
structure GlobalIssueDict where
  id : String
  title : String
  description : String
  related_sections : List String
deriving Repr, DecidableEq

/-- Pydantic `ConsistencyResponse` model (backend/models.py). -/
structure ConsistencyResponse where
  is_consistent : Bool
  global_issues : List GlobalIssueDict
deriving Repr, DecidableEq

/-- The `target_issue` entry of the state: the code treats it as a plain
dictionary, testing truthiness and reading string fields with `.get`. -/
abbrev TargetIssue := List (String × String)

/-- Python `d.get(k, dflt)` on a string-valued dictionary. -/
def dictGet (d : TargetIssue) (k dflt : String) : String :=
  match d.find? (fun p => p.1 == k) with
  | some p => p.2
  | none => dflt

/-- Python truthiness of an `Optional[dict]` value: `None`, a missing key
and the empty dictionary are all falsy; a non-empty dictionary is truthy. -/
def pyTruthy : Option TargetIssue → Bool
  | none => false
  | some d => !d.isEmpty

/-- Python `str.strip()`: drop leading and trailing whitespace. -/
def pyStrip (s : String) : String :=
  String.mk (((s.data.dropWhile Char.isWhitespace).reverse.dropWhile Char.isWhitespace).reverse)

/-- `p` is a prefix of `l` (on character lists). -/
def charListHasPrefixD : List Char → List Char → Bool
  | _, [] => true
  | [], _ :: _ => false
  | a :: as, b :: bs => a == b && charListHasPrefixD as bs

/-- `p` occurs as a contiguous run inside `l`. -/
def charListContainsD (l p : List Char) : Bool :=
  charListHasPrefixD l p ||
    (match l with
     | [] => false
     | _ :: as => charListContainsD as p)

/-- Python substring test `needle in hay`. -/
def strContains (hay needle : String) : Bool :=
  charListContainsD hay.data needle.data

/-- The LangGraph `AgentState` TypedDict (backend/models.py).  A `none`
field models a key that is absent (or, for `target_issue`, absent or
`None`). -/
structure AgentState where
  section_title : Option String := none
  criteria : Option String := none
  template_structure : Option String := none
  user_content : Option String := none
  issues : Option (List IssueDict) := none
  is_compliant : Option Bool := none
  target_issue : Option TargetIssue := none
deriving Repr, DecidableEq

/-- A partial state update as returned by a LangGraph node: `some v` in a
field means the node's returned dictionary assigns that key, `none` means
the key is absent from the returned dictionary (so the merged state keeps
its prior value).  For `target_issue` the assigned value is itself
optional, so `some none` models the explicit assignment `target_issue:
None`. -/
structure StateUpdate where
  section_title : Option String := none
  criteria : Option String := none
  template_structure : Option String := none
  user_content : Option String := none
  issues : Option (List IssueDict) := none
  is_compliant : Option Bool := none
  target_issue : Option (Option TargetIssue) := none
deriving Repr, DecidableEq

/-- LangGraph merge of a node's partial update into the running state:
assigned keys overwrite, unassigned keys keep their prior value. -/
def applyUpdate (s : AgentState) (u : StateUpdate) : AgentState :=
  { section_title := match u.section_title with | some v => some v | none => s.section_title
    criteria := match u.criteria with | some v => some v | none => s.criteria
    template_structure := match u.template_structure with | some v => some v | none => s.template_structure
    user_content := match u.user_content with | some v => some v | none => s.user_content
    issues := match u.issues with | some v => some v | none => s.issues
    is_compliant := match u.is_compliant with | some v => some v | none => s.is_compliant
    target_issue := match u.target_issue with | some v => v | none => s.target_issue }

/-- Result of running a node: the returned partial update, plus the number
of provider invocations performed (incremented exactly where the source
calls `structured_llm.invoke`). -/
structure NodeResult where
  update : StateUpdate
  llm_calls : Nat
deriving Repr, DecidableEq

/-- Oracle modelling `llm.with_structured_output(AuditResponse).invoke` on
the system message: returns the structured response or raises. -/
abbrev AuditClient := String → Except String AuditResponse

/-- Oracle modelling `llm.with_structured_output(FixResponse).invoke`. -/
abbrev FixClient := String → Except String FixResponse

/-- Oracle modelling the structured consistency call. -/
abbrev ConsistencyClient := String → Except String ConsistencyResponse

/-- `AUDITOR_SYSTEM_PROMPT.format(...)` (backend/prompts.py): the auditor
system prompt with the four context fields substituted. -/
def AUDITOR_SYSTEM_PROMPT_format (section_title criteria template_structure user_content : String) : String :=
  "You are a Helpful Charter Coach.\n\nYour Goal: collaborative check if the USER CONTENT Satisfies the CRITERIA.\nIf the content is mostly correct, approve it. Do not be nitpicky.\n\n---\nINPUT CONTEXT:\nSECTION TITLE: " ++ section_title ++
  "\n\nCRITERIA (The Guide):\n" ++ criteria ++
  "\n\nTEMPLATE STRUCTURE (The Recommended Format):\n" ++ template_structure ++
  "\n\nUSER CONTENT (The Draft):\n" ++ user_content ++
  "\n---\n\nAUDIT RULES:\n\n1. **Check for Compliance**: Does the draft fundamentally meet the criteria?\n   - If YES, and it\x27s readable -> PASS.\n2. **Check for Placeholders**: Scan for obvious unassigned text like `<Add Name>`, `[Insert Here]`, `[Missing Value]`. \n   - If found -> Mark as \"Action Item\".\n   - **Fixable = False** (The AI cannot invent this data).\n3. **Check for Missing Mandatory Values**: If the criteria requires a specific role and it is missing.\n   - If found -> Mark as \"Action Item\".\n   - **Fixable = False** (The AI cannot invent who the person is).\n4. **Tone Check**: Be encouraging. Avoid harsh words. Use \"Suggestion\" or \"Action Item\" instead of \"Error\" or \"Violation\".\n5. **No Infinite Loops**: If the user has addressed the core feedback, do not invent new minor issues.\n6. **Fixability Determination**:\n   - IF the issue is about formatting, grammar, tone, or structure -> **Fixable = True**.\n   - IF the issue is about missing facts, names, dates, or specific logic decisions -> **Fixable = False**.\n\nOUTPUT INSTRUCTION:\nReturn a structured list of findings. If everything looks good, return an empty list or a success message.\n"

/-- `FIXER_SYSTEM_PROMPT.format(...)` (backend/prompts.py). -/
def FIXER_SYSTEM_PROMPT_format (template_structure user_content issue_description recommendation : String) : String :=
  "You are a Helpful Editor for Project Charters.\n\nYour Task: Polish the USER CONTENT to address the specific feedback, while keeping their original voice.\n\n---\nSTRICT GUIDELINES:\n1. **NO HALLUCINATIONS**: Do NOT invent names or data.\n2. **RESPECT VOICE**: Keep the user\x27s phrasing where possible. Only change formatting or structure if needed to meet the criteria.\n3. **SCOPE**: Fix ONLY the issue described. Do not rewrite perfectly good sections.\n4. **FORMATTING**: Align to the TEMPLATE STRUCTURE only if the original format was confusing.\n---\n\nCONTEXT:\nTEMPLATE STRUCTURE:\n" ++ template_structure ++
  "\n\nORIGINAL USER CONTENT:\n" ++ user_content ++
  "\n\nFEEDBACK TO ADDRESS:\n" ++ issue_description ++ " (Recommendation: " ++ recommendation ++ ")\n\nOUTPUT:\nProvide ONLY the polished text.\n"

/-- The system message the auditor node builds from the state
(nodes.py lines 32-35 and 54-59). -/
def auditor_system_msg (state : AgentState) : String :=
  AUDITOR_SYSTEM_PROMPT_format
    (state.section_title.getD "Unknown Section")
    (state.criteria.getD "")
    (state.template_structure.getD "")
    (state.user_content.getD "")

/-- The system message the fixer node builds from the state
(nodes.py lines 103-117). -/
def fixer_system_msg (state : AgentState) : String :=
  FIXER_SYSTEM_PROMPT_format
    (state.template_structure.getD "")
    (state.user_content.getD "")
    (dictGet (state.target_issue.getD []) "issue_description" "General Fix")
    (dictGet (state.target_issue.getD []) "recommendation" "Follow template")

/-- `route_request` (backend/graph/workflow.py): conditional entry point;
`if state.get("target_issue"): return "fixer"` else `return "auditor"`. -/
def route_request (state : AgentState) : String :=
  if pyTruthy state.target_issue then "fixer" else "auditor"

/-- `auditor_node` (backend/graph/nodes.py).  The fail-fast branch checks
`not content or len(content.strip()) < 2`; otherwise the structured audit
call is made and its result (or the fallback error issue, if it raises) is
returned as a partial update of `issues` and `is_compliant`. -/
def auditor_node (state : AgentState) (client : AuditClient) : NodeResult :=
  if state.user_content.getD "" = "" ∨ (pyStrip (state.user_content.getD "")).length < 2 then
    { update := { issues := some [{ id := "0", severity := "High", issue_description := "Content is empty.", recommendation := "Please fill in the section using the template provided.", fixable := false }], is_compliant := some false }, llm_calls := 0 }
  else
    match client (auditor_system_msg state) with
    | Except.ok response =>
      { update := { issues := some (if response.issues.isEmpty then [] else response.issues.map Issue.model_dump), is_compliant := some response.is_compliant }, llm_calls := 1 }
    | Except.error _ =>
      { update := { issues := some [{ id := "err", severity := "High", issue_description := "AI Audit Service Failed.", recommendation := "Please try again.", fixable := false }], is_compliant := some false }, llm_calls := 1 }

/-- `fixer_node` (backend/graph/nodes.py).  With a falsy `target_issue`
(`None`, missing or empty dict) it returns the content unchanged without
calling the provider; on a successful structured call it returns the fixed
content and assigns `target_issue: None`; if the call raises it returns the
original content (without touching `target_issue`). -/
def fixer_node (state : AgentState) (client : FixClient) : NodeResult :=
  if (state.target_issue.getD []).isEmpty then
    { update := { user_content := some (state.user_content.getD "") }, llm_calls := 0 }
  else
    match client (fixer_system_msg state) with
    | Except.ok response =>
      { update := { user_content := some response.fixed_content, target_issue := some none }, llm_calls := 1 }
    | Except.error _ =>
      { update := { user_content := some (state.user_content.getD "") }, llm_calls := 1 }

/-- The consistency node's returned dictionary. -/
structure ConsistencyUpdate where
  is_consistent : Bool
  global_issues : List GlobalIssueDict
deriving Repr, DecidableEq

/-- Modelled from the spec: `consistency_node` is imported from
`backend.graph.nodes` by `backend/graph/workflow.py` and exercised by the
test suite, but its definition is absent from the sources.  Per the spec
it takes the full concatenated document text and an LLM client that may be
unavailable (missing credentials, modelled as `none`) or may raise, and
"On missing credentials or failure, return `is_consistent:false,
global_issues:[]` (a safe default rather than raising)"; otherwise it
returns the structured `ConsistencyResult` produced by the client. -/
def consistency_node (document : String) (client : Option ConsistencyClient) : ConsistencyUpdate :=
  match client with
  | none => { is_consistent := false, global_issues := [] }
  | some invoke =>
    match invoke document with
    | Except.ok response => { is_consistent := response.is_consistent, global_issues := response.global_issues }
    | Except.error _ => { is_consistent := false, global_issues := [] }

/-- The `meta` dictionary of a section handed to `run_batch_audit`. -/
structure SectionMeta where
  title : String
  criteria : String
  template_structure : String
deriving Repr, DecidableEq

/-- The `user_data` dictionary of a section handed to `run_batch_audit`. -/
structure UserData where
  content : String
deriving Repr, DecidableEq

/-- A section as consumed by `run_batch_audit` (workflow.py lines 68-71). -/
structure Section where
  id : String
  meta : SectionMeta
  user_data : UserData
deriving Repr, DecidableEq

/-- Python dictionary assignment `m[k] = v`: overwrite in place when the
key is present, append otherwise. -/
def dictSet {α : Type} (m : List (String × α)) (k : String) (v : α) : List (String × α) :=
  if m.any (fun p => p.1 == k) then m.map (fun p => if p.1 == k then (k, v) else p)
  else m ++ [(k, v)]

/-- The per-section state built inside the batch loop
(workflow.py lines 79-84): only the four audit inputs are populated. -/
def batch_state (sec : Section) : AgentState :=
  { section_title := some sec.meta.title, criteria := some sec.meta.criteria,
    template_structure := some sec.meta.template_structure,
    user_content := some sec.user_data.content }

/-- The plain-text rendering of one section accumulated for the global
check (workflow.py line 74). -/
def section_text (sec : Section) : String :=
  "SECTION: " ++ sec.meta.title ++ "\nCONTENT:\n" ++ sec.user_data.content ++ "\n"

/-- Result of `run_batch_audit`: the per-section results map, the single
global consistency result, and (instrumentation) the number of
`consistency_node` invocations the aggregator performed. -/
structure BatchResult where
  section_results : List (String × StateUpdate)
  global_result : ConsistencyUpdate
  consistency_calls : Nat
deriving Repr, DecidableEq

/-- The body of the per-section loop of `run_batch_audit` (workflow.py
lines 68-88): renders the section's text, audits it directly through
`auditor_node` on the four-field state, and stores the result under the
section's id with Python dictionary assignment. -/
def batch_step (client : AuditClient) (acc : List (String × StateUpdate) × List String) (sec : Section) : List (String × StateUpdate) × List String :=
  (dictSet acc.1 sec.id (auditor_node (batch_state sec) client).update,
   acc.2 ++ [section_text sec])

/-- `run_batch_audit` (backend/graph/workflow.py): sequentially audits every
section, accumulating `results_map[sec_id] = audit_result` and the
plain-text renderings, then joins the texts with a separator and runs the
consistency check once on the combination. -/
def run_batch_audit (sections : List Section) (client : AuditClient) (cclient : Option ConsistencyClient) : BatchResult :=
  let folded := sections.foldl (batch_step client) ([], [])
  let combined_content := String.intercalate "\n---\n" folded.2
  { section_results := folded.1,
    global_result := consistency_node combined_content cclient,
    consistency_calls := 1 }

/-! Concrete inputs used by counterexamples and witnesses. -/

/-- A state whose `target_issue` is a non-null but empty dictionary. -/
def c1_state : AgentState := { target_issue := some [] }

/-- A state with a truthy `target_issue`. -/
def c1_fix_state : AgentState := { target_issue := some [("issue_description", "d")] }

/-- A state with no `target_issue` at all. -/
def c1_audit_state : AgentState := {}

/-- A state whose content is whitespace only. -/
def c2_state : AgentState :=
  { section_title := some "Test Section", criteria := some "Test criteria",
    template_structure := some "Test structure", user_content := some " " }

/-- An audit client that would approve anything (must not be reached). -/
def c2_client : AuditClient := fun _ => Except.ok { is_compliant := true, issues := [] }

/-- A state with content but no target issue. -/
def c3_state : AgentState := { user_content := some "hello", target_issue := none }

/-- A fix client that would change the content (must not be reached). -/
def c3_client : FixClient := fun _ => Except.ok { fixed_content := "CHANGED" }

/-- A state carrying a non-null target issue. -/
def c4_state : AgentState :=
  { user_content := some "Original content", template_structure := some "Template",
    target_issue := some [("issue_description", "Fix this")] }

/-- A fix client whose invocation raises. -/
def c4_fail_client : FixClient := fun _ => Except.error "LLM Error"

/-- A fix client whose invocation succeeds. -/
def c4_ok_client : FixClient := fun _ => Except.ok { fixed_content := "Fixed content here" }

/-- A state with non-empty content for the audit error path. -/
def c5_state : AgentState :=
  { section_title := some "Test", criteria := some "Test",
    template_structure := some "Test", user_content := some "Some content" }

/-- An audit client whose invocation raises with a distinctive error text. -/
def c5_client : AuditClient := fun _ => Except.error "LLM API Error"

/-- A state with non-empty content audited while credentials are missing. -/
def c6_state : AgentState :=
  { section_title := some "Test Section", criteria := some "Test criteria",
    template_structure := some "Test structure", user_content := some "Some content" }

/-- Missing credentials in the stale module-level client: the invocation
reaches the provider wrapper and raises an authentication error. -/
def c6_auth_fail_client : AuditClient :=
  fun _ => Except.error "AuthenticationError: OPENAI_API_KEY not configured"

/-- A state carrying a non-null target issue, for the fixer error path. -/
def c7_state : AgentState :=
  { user_content := some "Original content", template_structure := some "Template",
    target_issue := some [("issue_description", "Fix this"), ("recommendation", "Do this")] }

/-- A fix client whose invocation raises. -/
def c7_fail_client : FixClient := fun _ => Except.error "LLM Error"

/-- First of two batch sections sharing the id "a". -/
def c8_sec1 : Section :=
  { id := "a", meta := { title := "T1", criteria := "", template_structure := "" },
    user_data := { content := "" } }

/-- Second of two batch sections sharing the id "a". -/
def c8_sec2 : Section :=
  { id := "a", meta := { title := "T2", criteria := "", template_structure := "" },
    user_data := { content := "" } }

/-- An audit client for batch runs (sections have empty content, so it is
never reached). -/
def c8_client : AuditClient := fun _ => Except.error "unreached"

/-- A batch section with id "s1". -/
def c8w_sec1 : Section :=
  { id := "s1", meta := { title := "T1", criteria := "c1", template_structure := "f1" },
    user_data := { content := "" } }

/-- A batch section with id "s2". -/
def c8w_sec2 : Section :=
  { id := "s2", meta := { title := "T2", criteria := "c2", template_structure := "f2" },
    user_data := { content := "" } }

/-! Helper lemmas. -/

/-- A falsy `target_issue` (`None`, missing or an empty dictionary) makes
the dictionary the fixer reads out of the state empty. -/
theorem getD_isEmpty_of_not_truthy {t : Option TargetIssue} (h : pyTruthy t = false) :
    (t.getD []).isEmpty = true := by
  cases t with
  | none => rfl
  | some d => simpa [pyTruthy] using h

/-- A truthy `target_issue` makes the dictionary the fixer reads non-empty. -/
theorem getD_isEmpty_of_truthy {t : Option TargetIssue} (h : pyTruthy t = true) :
    (t.getD []).isEmpty = false := by
  cases t with
  | none => simp [pyTruthy] at h
  | some d => simpa [pyTruthy] using h

/-! Claim theorems. -/

/-- C1 counterexample: the state whose `target_issue` is the empty
dictionary has a non-null `target_issue`, yet the router sends it to the
auditor branch, refuting "returns 'fixer' whenever `target_issue` is
non-null". -/
theorem c1_counterexample :
    c1_state.target_issue ≠ none ∧ route_request c1_state = "auditor" := by
  exact ⟨by decide, rfl⟩

/-- C1 (amended): the router returns exactly one of the two branch
identifiers, deciding by the Python truthiness of `target_issue`: "fixer"
whenever `target_issue` is non-null and non-empty, "auditor" whenever it is
null, missing or the empty dictionary; and it consults no other field of
the state (two states agreeing on `target_issue` are routed alike). -/
theorem c1_route_request_truthiness (s t : AgentState) :
    (pyTruthy s.target_issue = true → route_request s = "fixer") ∧
    (pyTruthy s.target_issue = false → route_request s = "auditor") ∧
    (s.target_issue = t.target_issue → route_request s = route_request t) := by
  refine ⟨fun h => ?_, fun h => ?_, fun h => ?_⟩ <;> simp [route_request, h]

/-- Witness for C1: the amended router rule evaluated at a truthy and at a
null `target_issue`. -/
theorem c1_witness :
    route_request c1_fix_state = "fixer" ∧ route_request c1_audit_state = "auditor" :=
  ⟨(c1_route_request_truthiness c1_fix_state c1_fix_state).1 (by decide),
   (c1_route_request_truthiness c1_audit_state c1_audit_state).2.1 (by decide)⟩

/-- C2: whenever `user_content` is empty or shorter than 2 characters after
trimming whitespace, the auditor performs no provider invocation and
returns `is_compliant = false` with exactly one issue, of severity "High"
and with `fixable = false`. -/
theorem c2_auditor_fail_fast (state : AgentState) (client : AuditClient)
    (h : state.user_content.getD "" = "" ∨ (pyStrip (state.user_content.getD "")).length < 2) :
    (auditor_node state client).llm_calls = 0 ∧
    (auditor_node state client).update.is_compliant = some false ∧
    (auditor_node state client).update.issues =
      some [{ id := "0", severity := "High", issue_description := "Content is empty.", recommendation := "Please fill in the section using the template provided.", fixable := false }] := by
  unfold auditor_node
  rw [if_pos h]
  exact ⟨rfl, rfl, rfl⟩

/-- Witness for C2: the fail-fast branch at whitespace-only content. -/
theorem c2_witness :
    (auditor_node c2_state c2_client).llm_calls = 0 ∧
    (auditor_node c2_state c2_client).update.is_compliant = some false ∧
    (auditor_node c2_state c2_client).update.issues =
      some [{ id := "0", severity := "High", issue_description := "Content is empty.", recommendation := "Please fill in the section using the template provided.", fixable := false }] :=
  c2_auditor_fail_fast c2_state c2_client (by decide)

/-- C3: with a null or empty `target_issue` the fixer is a no-op: it
returns the input `user_content` unchanged and never invokes the provider
client. -/
theorem c3_fixer_no_target_noop (state : AgentState) (client : FixClient) (c : String)
    (ht : pyTruthy state.target_issue = false) (hc : state.user_content = some c) :
    (fixer_node state client).update.user_content = some c ∧
    (fixer_node state client).llm_calls = 0 := by
  unfold fixer_node
  rw [if_pos (getD_isEmpty_of_not_truthy ht), hc]
  exact ⟨rfl, rfl⟩

/-- Witness for C3: the no-op branch at `target_issue = null`,
`user_content = "hello"`. -/
theorem c3_witness :
    (fixer_node c3_state c3_client).update.user_content = some "hello" ∧
    (fixer_node c3_state c3_client).llm_calls = 0 :=
  c3_fixer_no_target_noop c3_state c3_client "hello" (by decide) rfl

/-- C4 counterexample: on the provider-error path the fixer's returned
update does not assign `target_issue` at all, so the merged state keeps the
original non-null target issue — the output does not have `target_issue`
equal to null on every failure path. -/
theorem c4_counterexample :
    (fixer_node c4_state c4_fail_client).update.target_issue = none ∧
    (applyUpdate c4_state (fixer_node c4_state c4_fail_client).update).target_issue
      = some [("issue_description", "Fix this")] := by
  exact ⟨rfl, rfl⟩

/-- C4 (amended): the fixer assigns `target_issue := null` exactly on the
success path; on the no-target path and on the provider-error path its
update leaves `target_issue` unassigned, so the merged state keeps the
prior (possibly stale) target issue. -/
theorem c4_fixer_target_issue_clearing (state : AgentState) (client : FixClient) :
    (pyTruthy state.target_issue = false →
      (fixer_node state client).update.target_issue = none) ∧
    (∀ r : FixResponse, client (fixer_system_msg state) = Except.ok r →
      pyTruthy state.target_issue = true →
      (fixer_node state client).update.target_issue = some none) ∧
    (∀ e : String, client (fixer_system_msg state) = Except.error e →
      pyTruthy state.target_issue = true →
      (fixer_node state client).update.target_issue = none) := by
  refine ⟨fun h => ?_, fun r hok h => ?_, fun e herr h => ?_⟩
  · unfold fixer_node
    rw [if_pos (getD_isEmpty_of_not_truthy h)]
  · unfold fixer_node
    rw [if_neg (by rw [getD_isEmpty_of_truthy h]; exact Bool.false_ne_true), hok]
  · unfold fixer_node
    rw [if_neg (by rw [getD_isEmpty_of_truthy h]; exact Bool.false_ne_true), herr]

/-- Witness for C4 (amended): the success path clears `target_issue`. -/
theorem c4_witness :
    (fixer_node c4_state c4_ok_client).update.target_issue = some none :=
  (c4_fixer_target_issue_clearing c4_state c4_ok_client).2.1
    { fixed_content := "Fixed content here" } rfl (by decide)

/-- C5 code-bug evidence: with non-empty content and a provider invocation
raising "LLM API Error", the auditor does return `is_compliant = false`
with a single High non-fixable issue without raising, but the issue's
description is the fixed string "AI Audit Service Failed.", which contains
neither the underlying error text nor even the substring "Error" that the
repository's own test `test_handles_llm_exception` asserts. -/
theorem c5_code_divergence :
    (auditor_node c5_state c5_client).update.is_compliant = some false ∧
    (auditor_node c5_state c5_client).update.issues =
      some [{ id := "err", severity := "High", issue_description := "AI Audit Service Failed.", recommendation := "Please try again.", fixable := false }] ∧
    strContains "AI Audit Service Failed." "LLM API Error" = false ∧
    strContains "AI Audit Service Failed." "Error" = false := by
  refine ⟨?_, ?_, by decide, by decide⟩ <;> decide

/-- C6 code-bug evidence: the stale node has no credentials short-circuit:
with non-empty content it always performs the provider invocation
(`llm_calls = 1`), and when that invocation fails for missing credentials
it returns the generic "AI Audit Service Failed." issue, which is not a
"credentials missing" issue (the repository's own test
`test_returns_auth_error_without_credentials` expects an `auth_err` issue
mentioning "Credentials Missing" produced before any provider call). -/
theorem c6_code_divergence :
    (auditor_node c6_state c6_auth_fail_client).llm_calls = 1 ∧
    (auditor_node c6_state c6_auth_fail_client).update.issues =
      some [{ id := "err", severity := "High", issue_description := "AI Audit Service Failed.", recommendation := "Please try again.", fixable := false }] ∧
    strContains "AI Audit Service Failed." "Credentials Missing" = false := by
  refine ⟨?_, ?_, by decide⟩ <;> decide

/-- C7: with a non-null `target_issue`, if the provider invocation during
fix raises then the fixer returns the original `user_content` exactly
unchanged (and, being a total function, lets no exception escape). -/
theorem c7_fixer_error_unchanged (state : AgentState) (client : FixClient) (c e : String)
    (_ht : state.target_issue ≠ none)
    (he : client (fixer_system_msg state) = Except.error e)
    (hc : state.user_content = some c) :
    (fixer_node state client).update.user_content = some c := by
  unfold fixer_node
  by_cases hempty : (state.target_issue.getD []).isEmpty = true
  · rw [if_pos hempty, hc]
    rfl
  · rw [if_neg hempty, he, hc]
    rfl

/-- Witness for C7: the error path at a concrete state and failing client. -/
theorem c7_witness :
    (fixer_node c7_state c7_fail_client).update.user_content = some "Original content" :=
  c7_fixer_error_unchanged c7_state c7_fail_client "Original content" "LLM Error"
    (by decide) rfl rfl

/-- Assigning a fresh key into a Python dictionary appends the pair. -/
theorem dictSet_of_not_mem {α : Type} (m : List (String × α)) (k : String) (v : α)
    (h : ∀ p ∈ m, p.1 ≠ k) : dictSet m k v = m ++ [(k, v)] := by
  have hany : m.any (fun p => p.1 == k) = false := by
    rw [List.any_eq_false]
    intro p hp
    simpa using h p hp
  unfold dictSet
  rw [if_neg (by rw [hany]; exact Bool.false_ne_true)]

/-- Unrolling the batch loop: over sections with pairwise-distinct ids and
an accumulator containing none of them, the loop appends, in order, one
entry per section keyed by its id and holding the auditor's result for
that section, while accumulating the section texts. -/
theorem batch_foldl_eq (client : AuditClient) (sections : List Section) :
    ∀ (acc : List (String × StateUpdate)) (texts : List String),
      (∀ sec ∈ sections, ∀ p ∈ acc, p.1 ≠ sec.id) →
      (sections.map Section.id).Nodup →
      sections.foldl (batch_step client) (acc, texts)
        = (acc ++ sections.map (fun sec => (sec.id, (auditor_node (batch_state sec) client).update)),
           texts ++ sections.map section_text) := by
  induction sections with
  | nil => intro acc texts _ _; simp
  | cons sec rest ih =>
    intro acc texts h hnd
    have hnotin : sec.id ∉ rest.map Section.id := (List.nodup_cons.mp (by simpa using hnd)).1
    have hnd' : (rest.map Section.id).Nodup := (List.nodup_cons.mp (by simpa using hnd)).2
    have hdisj : ∀ s ∈ rest,
        ∀ p ∈ acc ++ [(sec.id, (auditor_node (batch_state sec) client).update)], p.1 ≠ s.id := by
      intro s hs p hp
      rcases List.mem_append.mp hp with hp | hp
      · exact h s (List.mem_cons_of_mem _ hs) p hp
      · have hp' : p = (sec.id, (auditor_node (batch_state sec) client).update) := by
          simpa using hp
        rw [hp']
        intro hEq
        have hEq' : sec.id = s.id := hEq
        exact hnotin (hEq' ▸ List.mem_map_of_mem Section.id hs)
    rw [List.foldl_cons]
    have hstep : batch_step client (acc, texts) sec
        = (acc ++ [(sec.id, (auditor_node (batch_state sec) client).update)],
           texts ++ [section_text sec]) := by
      unfold batch_step
      rw [dictSet_of_not_mem _ _ _ (h sec (List.mem_cons_self sec rest))]
    rw [hstep, ih _ _ hdisj hnd']
    simp

/-- The batch aggregator in closed form, for sections with
pairwise-distinct ids. -/
theorem run_batch_audit_eq (sections : List Section) (client : AuditClient)
    (cclient : Option ConsistencyClient) (hnd : (sections.map Section.id).Nodup) :
    run_batch_audit sections client cclient =
      { section_results := sections.map (fun sec => (sec.id, (auditor_node (batch_state sec) client).update)),
        global_result := consistency_node (String.intercalate "\n---\n" (sections.map section_text)) cclient,
        consistency_calls := 1 } := by
  simp only [run_batch_audit]
  rw [batch_foldl_eq client sections [] [] (by simp) hnd]
  simp

/-- C8 counterexample: two sections sharing the id "a" are a sequence of
N = 2 sections for which `section_results` has a single entry (the second
audit overwrites the first), refuting "exactly N entries" for every
ordered sequence of sections. -/
theorem c8_counterexample :
    [c8_sec1, c8_sec2].length = 2 ∧
    (run_batch_audit [c8_sec1, c8_sec2] c8_client none).section_results.length = 1 := by
  exact ⟨rfl, by decide⟩

/-- C8 (amended): for every ordered sequence of N sections with
pairwise-distinct ids, the batch aggregator returns `section_results` with
exactly N entries, in order keyed by each section's id and holding the
audit node's result for that section, and a single `global_result` obtained
by exactly one consistency-node invocation, performed after the
per-section loop on the joined text of all sections. -/
theorem c8_run_batch_audit (sections : List Section) (client : AuditClient)
    (cclient : Option ConsistencyClient) (hnd : (sections.map Section.id).Nodup) :
    (run_batch_audit sections client cclient).section_results
      = sections.map (fun sec => (sec.id, (auditor_node (batch_state sec) client).update)) ∧
    (run_batch_audit sections client cclient).section_results.length = sections.length ∧
    (run_batch_audit sections client cclient).global_result
      = consistency_node (String.intercalate "\n---\n" (sections.map section_text)) cclient ∧
    (run_batch_audit sections client cclient).consistency_calls = 1 := by
  rw [run_batch_audit_eq sections client cclient hnd]
  exact ⟨rfl, by simp, rfl, rfl⟩

/-- Witness for C8 (amended): a two-section batch with distinct ids. -/
theorem c8_witness :
    (run_batch_audit [c8w_sec1, c8w_sec2] c8_client none).section_results
      = [c8w_sec1, c8w_sec2].map (fun sec => (sec.id, (auditor_node (batch_state sec) c8_client).update)) ∧
    (run_batch_audit [c8w_sec1, c8w_sec2] c8_client none).section_results.length
      = [c8w_sec1, c8w_sec2].length ∧
    (run_batch_audit [c8w_sec1, c8w_sec2] c8_client none).global_result
      = consistency_node (String.intercalate "\n---\n" ([c8w_sec1, c8w_sec2].map section_text)) none ∧
    (run_batch_audit [c8w_sec1, c8w_sec2] c8_client none).consistency_calls = 1 :=
  c8_run_batch_audit [c8w_sec1, c8w_sec2] c8_client none (by decide)

/-- C9: for every document text, on missing credentials (no client) or on a
raising provider invocation, the consistency node returns the safe default
`is_consistent = false`, `global_issues = []` instead of raising. -/
theorem c9_consistency_safe_default (document : String) (client : Option ConsistencyClient) (e : String)
    (h : client = none ∨ ∃ c, client = some c ∧ c document = Except.error e) :
    consistency_node document client = { is_consistent := false, global_issues := [] } := by
  rcases h with h | ⟨c, hc, herr⟩
  · rw [h]
    rfl
  · rw [hc]
    simp only [consistency_node]
    rw [herr]

/-- Witness for C9: the missing-credentials case on a concrete document. -/
theorem c9_witness :
    consistency_node "Full document content" none = { is_consistent := false, global_issues := [] } :=
  c9_consistency_safe_default "Full document content" none "" (Or.inl rfl)

/-- C10: on every path the auditor's returned update assigns only `issues`
and `is_compliant`; merging it back into the state leaves `user_content`,
`section_title`, `criteria`, `template_structure` and `target_issue` at
their prior values. -/
theorem c10_auditor_frame (state : AgentState) (client : AuditClient) :
    ((auditor_node state client).update.section_title = none ∧
     (auditor_node state client).update.criteria = none ∧
     (auditor_node state client).update.template_structure = none ∧
     (auditor_node state client).update.user_content = none ∧
     (auditor_node state client).update.target_issue = none) ∧
    ((auditor_node state client).update.issues.isSome = true ∧
     (auditor_node state client).update.is_compliant.isSome = true) ∧
    ((applyUpdate state (auditor_node state client).update).section_title = state.section_title ∧
     (applyUpdate state (auditor_node state client).update).criteria = state.criteria ∧
     (applyUpdate state (auditor_node state client).update).template_structure = state.template_structure ∧
     (applyUpdate state (auditor_node state client).update).user_content = state.user_content ∧
     (applyUpdate state (auditor_node state client).update).target_issue = state.target_issue) := by
  unfold auditor_node
  split
  · exact ⟨⟨rfl, rfl, rfl, rfl, rfl⟩, ⟨rfl, rfl⟩, ⟨rfl, rfl, rfl, rfl, rfl⟩⟩
  · split
    · exact ⟨⟨rfl, rfl, rfl, rfl, rfl⟩, ⟨rfl, rfl⟩, ⟨rfl, rfl, rfl, rfl, rfl⟩⟩
    · exact ⟨⟨rfl, rfl, rfl, rfl, rfl⟩, ⟨rfl, rfl⟩, ⟨rfl, rfl, rfl, rfl, rfl⟩⟩

end BrainstormPW
